import Mathlib

/-!
A shallow embedding of the luddite service core (src/service.go).

Modelling conventions:
* URL paths are represented as lists of path segments (the result of
  splitting the concrete path on the slash character); a base path such as
  /widgets is the segment list ["widgets"].
* Go interface values that may be nil are represented with Option.
* time.Duration is an Int counting nanoseconds.
* Handler values are represented by tags identifying which handler they
  are; their request-processing bodies live in other files of the
  repository and no claim depends on them, except for the router handler,
  whose body is in src/service.go and is embedded as routerHandlerRun.
-/

namespace Luddite

/-- HTTP methods used by the routing layer. -/
inductive HTTPMethod where
  | get
  | post
  | put
  | delete
deriving DecidableEq

/-- One segment of a route pattern: either a literal segment or a named
parameter segment (httprouter's colon-parameter). -/
inductive Seg where
  | lit (s : String)
  | param (s : String)
deriving DecidableEq

/-- The resource operation (or framework handler) a route binding targets. -/
inductive Operation where
  | list
  | get
  | create
  | update
  | delete
  | action
  | schemaServe
  | schemaRedirect
  | rootRedirect
deriving DecidableEq

/-- A route binding: HTTP method, path template, target operation, the
resource it dispatches to (identified abstractly by a number; 0 is the
framework itself), and whether the template carries an id parameter. -/
structure RouteBinding where
  method : HTTPMethod
  pattern : List Seg
  op : Operation
  res : Nat
  withId : Bool
deriving DecidableEq

/-- The httprouter.Router state, abstracted to its list of registered
bindings (registration order preserved). -/
structure Router where
  routes : List RouteBinding
deriving DecidableEq

/-- ServiceConfig.Version from the repository configuration. -/
structure VersionConfig where
  min : Int
  max : Int
deriving DecidableEq

/-- ServiceConfig.Metrics. The Go field Prefix is called metricsPrefix
here. -/
structure MetricsConfig where
  enabled : Bool
  server : String
  metricsPrefix : String
  interval : Int
deriving DecidableEq

/-- ServiceConfig.Transport. -/
structure TransportConfig where
  tls : Bool
  certFilePath : String
  keyFilePath : String
deriving DecidableEq

/-- ServiceConfig.Schema (only the fields the embedded code reads). -/
structure SchemaConfig where
  enabled : Bool
  uriPath : List String
  rootRedirect : Bool
deriving DecidableEq

/-- The service configuration (src/service.go reads these fields). -/
structure ServiceConfig where
  addr : String
  version : VersionConfig
  metrics : MetricsConfig
  transport : TransportConfig
  schema : SchemaConfig
deriving DecidableEq

def DEFAULT_STATSD_SERVER : String := "127.0.0.1:8125"

def DEFAULT_STATSD_PREFIX : String := "%HOST%."

/-- 2 * time.Second, in nanoseconds. -/
def DEFAULT_STATSD_INTERVAL : Int := 2000000000

/-- statsd.StatsdClient, abstracted to the construction parameters the
service passes it. -/
structure StatsdClient where
  server : String
  metricsPrefix : String
deriving DecidableEq

/-- statsd.StatsdBuffer, abstracted to its flush interval and the wrapped
client. -/
structure StatsdBuffer where
  interval : Int
  client : StatsdClient
deriving DecidableEq

/-- A middleware handler, identified by which handler it is.  User-added
handlers are distinguished by an abstract identifier. -/
inductive Handler where
  | bottom
  | negotiator
  | context (minVersion maxVersion : Int)
  | router
  | user (id : Nat)
deriving DecidableEq

/-- Modelled from the spec: buildMiddleware (the chain builder, whose body
is not under src/) composes an ordered handler list into a single pipeline
that runs handlers[0], then handlers[1], and so on; the composed artifact
is represented by the ordered list it composes. -/
structure middleware where
  chain : List Handler
deriving DecidableEq

def buildMiddleware (handlers : List Handler) : middleware :=
  ⟨handlers⟩

/-- The service struct from src/service.go (logger and schema handler
omitted; no claim reads them). -/
structure service where
  config : ServiceConfig
  router : Router
  statsdClient : Option StatsdClient
  stats : Option StatsdBuffer
  handlers : List Handler
  mw : middleware
deriving DecidableEq

/-- src/service.go lines 91-100: when metrics are enabled, empty or zero
metrics settings are replaced in place by the fixed defaults. -/
def applyMetricsDefaults (c : ServiceConfig) : ServiceConfig :=
  if c.metrics.enabled then
    { c with metrics :=
      { c.metrics with
        server := if c.metrics.server = "" then DEFAULT_STATSD_SERVER else c.metrics.server
        metricsPrefix := if c.metrics.metricsPrefix = "" then DEFAULT_STATSD_PREFIX else c.metrics.metricsPrefix
        interval := if c.metrics.interval = 0 then DEFAULT_STATSD_INTERVAL else c.metrics.interval } }
  else
    c

/-- src/service.go newBottomHandler: always succeeds. -/
def newBottomHandler : Except String Handler :=
  .ok .bottom

/-- src/service.go newNegotiatorHandler: always succeeds. -/
def newNegotiatorHandler : Except String Handler :=
  .ok .negotiator

/-- src/service.go newContextHandler: rejects a minimum or maximum API
version below 1, otherwise produces the version-context handler for the
configured range. -/
def newContextHandler (c : ServiceConfig) : Except String Handler :=
  if c.version.min < 1 then
    .error "service minimum API version must be greater than zero"
  else if c.version.max < 1 then
    .error "service maximum API version must be greater than zero"
  else
    .ok (.context c.version.min c.version.max)

/-- src/service.go addSchemaRoutes: registers the schema-serving routes.
The v-prefixed version segment of the first route is approximated by a
plain parameter segment; no claim depends on schema route matching. -/
def addSchemaRoutes (rt : Router) (c : ServiceConfig) : Router :=
  let rt1 : Router := ⟨rt.routes ++ [⟨.get, c.schema.uriPath.map Seg.lit ++ [Seg.param "version"], .schemaServe, 0, false⟩]⟩
  let rt2 : Router := ⟨rt1.routes ++ [⟨.get, c.schema.uriPath.map Seg.lit, .schemaRedirect, 0, false⟩]⟩
  if c.schema.rootRedirect then
    ⟨rt2.routes ++ [⟨.get, [], .rootRedirect, 0, false⟩]⟩
  else
    rt2

/-- src/service.go NewService: applies metrics defaults to the shared
configuration, creates the statsd client and buffer when metrics are
enabled, builds the default handler stack (bottom, negotiator, context) and
the middleware chain, and installs the schema routes when enabled.
Construction fails exactly when one of the default handler constructors
fails. -/
def NewService (config0 : ServiceConfig) : Except String service :=
  let config := applyMetricsDefaults config0
  let statsdClient : Option StatsdClient :=
    if config.metrics.enabled then
      some ⟨config.metrics.server, config.metrics.metricsPrefix⟩
    else
      none
  let stats : Option StatsdBuffer :=
    if config.metrics.enabled then
      some ⟨config.metrics.interval, ⟨config.metrics.server, config.metrics.metricsPrefix⟩⟩
    else
      none
  match newBottomHandler, newNegotiatorHandler, newContextHandler config with
  | .ok bh, .ok nh, .ok ch =>
    let handlers := [bh, nh, ch]
    let rt : Router := if config.schema.enabled then addSchemaRoutes ⟨[]⟩ config else ⟨[]⟩
    .ok { config := config, router := rt, statsdClient := statsdClient, stats := stats,
          handlers := handlers, mw := buildMiddleware handlers }
  | .error e, _, _ => .error e
  | _, .error e, _ => .error e
  | _, _, .error e => .error e

/-- src/service.go AddHandler: appends the handler and rebuilds the
middleware chain from the updated list. -/
def AddHandler (s : service) (h : Handler) : service :=
  { s with handlers := s.handlers ++ [h], mw := buildMiddleware (s.handlers ++ [h]) }

/-- Modelled from the spec: addListRoute (resource routing helper, not
under src/) registers GET basePath dispatching to List. -/
def addListRoute (rt : Router) (basePath : List String) (res : Nat) : Router :=
  ⟨rt.routes ++ [⟨.get, basePath.map Seg.lit, .list, res, false⟩]⟩

/-- Modelled from the spec: addGetRoute registers GET basePath/(id) when
withId, else GET basePath, dispatching to Get. -/
def addGetRoute (rt : Router) (basePath : List String) (withId : Bool) (res : Nat) : Router :=
  ⟨rt.routes ++ [⟨.get, basePath.map Seg.lit ++ (if withId then [Seg.param "id"] else []), .get, res, withId⟩]⟩

/-- Modelled from the spec: addCreateRoute registers POST basePath
dispatching to Create. -/
def addCreateRoute (rt : Router) (basePath : List String) (res : Nat) : Router :=
  ⟨rt.routes ++ [⟨.post, basePath.map Seg.lit, .create, res, false⟩]⟩

/-- Modelled from the spec: addUpdateRoute registers PUT basePath/(id)
when withId, else PUT basePath, dispatching to Update. -/
def addUpdateRoute (rt : Router) (basePath : List String) (withId : Bool) (res : Nat) : Router :=
  ⟨rt.routes ++ [⟨.put, basePath.map Seg.lit ++ (if withId then [Seg.param "id"] else []), .update, res, withId⟩]⟩

/-- Modelled from the spec: addDeleteRoute registers DELETE basePath/(id)
when withId, else DELETE basePath, dispatching to Delete. -/
def addDeleteRoute (rt : Router) (basePath : List String) (withId : Bool) (res : Nat) : Router :=
  ⟨rt.routes ++ [⟨.delete, basePath.map Seg.lit ++ (if withId then [Seg.param "id"] else []), .delete, res, withId⟩]⟩

/-- Modelled from the spec: addActionRoute registers POST
basePath/(id)/(action) when withId, else POST basePath/(action),
dispatching to Action. -/
def addActionRoute (rt : Router) (basePath : List String) (withId : Bool) (res : Nat) : Router :=
  ⟨rt.routes ++ [⟨.post, basePath.map Seg.lit ++ (if withId then [Seg.param "id", Seg.param "action"] else [Seg.param "action"]), .action, res, withId⟩]⟩

/-- src/service.go AddSingletonResource: GET basePath, PUT basePath,
POST basePath/(action). -/
def AddSingletonResource (s : service) (basePath : List String) (res : Nat) : service :=
  let rt := addGetRoute s.router basePath false res
  let rt := addUpdateRoute rt basePath false res
  let rt := addActionRoute rt basePath false res
  { s with router := rt }

/-- src/service.go AddCollectionResource: GET basePath, GET basePath/(id),
POST basePath, PUT basePath/(id), DELETE basePath, DELETE basePath/(id),
POST basePath/(id)/(action), registered in that order. -/
def AddCollectionResource (s : service) (basePath : List String) (res : Nat) : service :=
  let rt := addListRoute s.router basePath res
  let rt := addGetRoute rt basePath true res
  let rt := addCreateRoute rt basePath res
  let rt := addUpdateRoute rt basePath true res
  let rt := addDeleteRoute rt basePath false res
  let rt := addDeleteRoute rt basePath true res
  let rt := addActionRoute rt basePath true res
  { s with router := rt }

/-- The kinds of Stats values s.Stats() can return: the buffered statsd
client or the shared NullStats instance.  The Option wrapper models Go's
nilable interface return type. -/
inductive StatsVal where
  | buffered (b : StatsdBuffer)
  | nullStatsVal
deriving DecidableEq

/-- src/service.go Stats: the buffered client when it exists, else the
shared NullStats instance. -/
def Stats (s : service) : Option StatsVal :=
  match s.stats with
  | some b => some (.buffered b)
  | none => some .nullStatsVal

/-- An HTTP request, its path already split into segments. -/
structure Request where
  method : HTTPMethod
  path : List String
deriving DecidableEq

/-- The observable response state: the written status code and the list of
methods announced as permitted (the Allow header). -/
structure Response where
  status : Nat
  allow : List HTTPMethod
deriving DecidableEq

/-- src/service.go lines 82-84: the router's NotFound callback writes
status 404. -/
def notFoundHandler (rw : Response) : Response :=
  { rw with status := 404 }

/-- src/service.go lines 86-88: the router's MethodNotAllowed callback
writes status 405. -/
def methodNotAllowedHandler (rw : Response) : Response :=
  { rw with status := 405 }

/-- Matches a route pattern against a concrete segment list, producing the
captured parameter bindings on success. -/
def matchSegs : List Seg → List String → Option (List (String × String))
  | [], [] => some []
  | [], _ :: _ => none
  | _ :: _, [] => none
  | Seg.lit s :: ps, x :: xs => if x = s then matchSegs ps xs else none
  | Seg.param n :: ps, x :: xs => (matchSegs ps xs).map (fun l => (n, x) :: l)

/-- Whether a binding's path template matches a concrete path. -/
def pathMatches (b : RouteBinding) (p : List String) : Bool :=
  (matchSegs b.pattern p).isSome

/-- The methods permitted for a concrete path: the methods of every
binding whose template matches it. -/
def allowedMethods (routes : List RouteBinding) (p : List String) : List HTTPMethod :=
  (routes.filter (fun b => pathMatches b p)).map (fun b => b.method)

/-- The outcome of router dispatch: either the matched binding's operation
with its captured parameters, or a response written by one of the
installed callbacks. -/
inductive DispatchResult where
  | matched (op : Operation) (res : Nat) (params : List (String × String))
  | response (rw : Response)
deriving DecidableEq

/-- Modelled from the spec: the router's HandleHTTP (the httprouter
dependency is not under src/) looks up the request method and path against
the registered bindings; on a match it dispatches the bound operation with
the decoded path parameters; on no path match it invokes the installed
NotFound callback; on a path match whose method differs it records the
permitted methods and invokes the installed MethodNotAllowed callback.
The two callbacks are the ones src/service.go installs. -/
def HandleHTTP (rt : Router) (req : Request) (rw : Response) : DispatchResult :=
  match rt.routes.find? (fun b => decide (b.method = req.method) && pathMatches b req.path) with
  | some b => .matched b.op b.res ((matchSegs b.pattern req.path).getD [])
  | none =>
    let al := allowedMethods rt.routes req.path
    if al.isEmpty then
      .response (notFoundHandler rw)
    else
      .response (methodNotAllowedHandler { rw with allow := al })

/-- src/service.go newRouterHandler body: the returned handler ignores the
continuation it is passed and delegates dispatch to the router. -/
def routerHandlerRun (rt : Router) (req : Request) (rw : Response)
    (_next : Response → Response) : DispatchResult :=
  HandleHTTP rt req rw

/-- src/service.go newRouterHandler: always succeeds, yielding the router
dispatch handler. -/
def newRouterHandler : Except String Handler :=
  .ok .router

/-- What Run produces, up to the externally-supplied serve outcome: the
service state at serve time, whether the deferred close of the buffered
statsd client ran when Run returned, and Run's returned error. -/
structure RunOutcome where
  state : service
  statsClosed : Bool
  result : Except String Unit

/-- src/service.go Run: appends the router handler as the final middleware
handler, arranges (via defer) for the buffered statsd client to be closed
when Run returns, and serves.  The serve outcome is external and supplied
as a parameter. -/
def Run (s : service) (serveErr : Option String) : RunOutcome :=
  match newRouterHandler with
  | .error e => ⟨s, false, .error e⟩
  | .ok h =>
    let s2 := AddHandler s h
    ⟨s2, s2.stats.isSome,
      match serveErr with
      | some e => .error e
      | none => .ok ()⟩

/-- The canonical service value NewService produces on success. -/
def mkServiceOf (c0 : ServiceConfig) : service :=
  let c := applyMetricsDefaults c0
  { config := c
    router := if c.schema.enabled then addSchemaRoutes ⟨[]⟩ c else ⟨[]⟩
    statsdClient :=
      if c.metrics.enabled then some ⟨c.metrics.server, c.metrics.metricsPrefix⟩ else none
    stats :=
      if c.metrics.enabled then
        some ⟨c.metrics.interval, ⟨c.metrics.server, c.metrics.metricsPrefix⟩⟩
      else
        none
    handlers := [.bottom, .negotiator, .context c0.version.min c0.version.max]
    mw := buildMiddleware [.bottom, .negotiator, .context c0.version.min c0.version.max] }

theorem applyMetricsDefaults_version (c : ServiceConfig) :
    (applyMetricsDefaults c).version = c.version := by
  unfold applyMetricsDefaults
  split <;> rfl

theorem applyMetricsDefaults_enabled (c : ServiceConfig) :
    (applyMetricsDefaults c).metrics.enabled = c.metrics.enabled := by
  unfold applyMetricsDefaults
  split <;> rfl

theorem newService_ok_elim (c : ServiceConfig) (s : service)
    (h : NewService c = .ok s) : s = mkServiceOf c := by
  have hv := applyMetricsDefaults_version c
  by_cases h1 : c.version.min < 1
  · simp [NewService, newBottomHandler, newNegotiatorHandler, newContextHandler, hv, h1] at h
  · by_cases h2 : c.version.max < 1
    · simp [NewService, newBottomHandler, newNegotiatorHandler, newContextHandler, hv, h1, h2] at h
    · simp [NewService, newBottomHandler, newNegotiatorHandler, newContextHandler, hv, h1, h2] at h
      rw [← h]
      simp [mkServiceOf, hv]

/-- C1: AddCollectionResource registers exactly seven route bindings —
GET basePath (List), GET basePath/(id) (Get with id), POST basePath
(Create), PUT basePath/(id) (Update with id), DELETE basePath (bulk Delete
without id), DELETE basePath/(id) (Delete with id), and POST
basePath/(id)/(action) (Action with id and action) — and no others. -/
theorem addCollectionResource_bindings (s : service) (p : List String) (r : Nat) :
    (AddCollectionResource s p r).router.routes = s.router.routes ++
      [⟨.get, p.map Seg.lit, .list, r, false⟩,
       ⟨.get, p.map Seg.lit ++ [Seg.param "id"], .get, r, true⟩,
       ⟨.post, p.map Seg.lit, .create, r, false⟩,
       ⟨.put, p.map Seg.lit ++ [Seg.param "id"], .update, r, true⟩,
       ⟨.delete, p.map Seg.lit, .delete, r, false⟩,
       ⟨.delete, p.map Seg.lit ++ [Seg.param "id"], .delete, r, true⟩,
       ⟨.post, p.map Seg.lit ++ [Seg.param "id", Seg.param "action"], .action, r, true⟩] := by
  simp [AddCollectionResource, addListRoute, addGetRoute, addCreateRoute,
        addUpdateRoute, addDeleteRoute, addActionRoute]

/-- C2: AddSingletonResource registers exactly three route bindings —
GET basePath (Get without id), PUT basePath (Update without id), and POST
basePath/(action) (Action without id) — and no others: no DELETE route, no
POST-create route, and no id-parameterized route. -/
theorem addSingletonResource_bindings (s : service) (p : List String) (r : Nat) :
    (AddSingletonResource s p r).router.routes = s.router.routes ++
      [⟨.get, p.map Seg.lit, .get, r, false⟩,
       ⟨.put, p.map Seg.lit, .update, r, false⟩,
       ⟨.post, p.map Seg.lit ++ [Seg.param "action"], .action, r, false⟩] := by
  simp [AddSingletonResource, addGetRoute, addUpdateRoute, addActionRoute]

/-- C3: AddHandler yields a handler list equal to the previous list with
the new handler appended last (all previous handlers keep their relative
order), and the middleware chain is rebuilt from exactly that updated
list. -/
theorem addHandler_appends_and_rebuilds (s : service) (h : Handler) :
    (AddHandler s h).handlers = s.handlers ++ [h] ∧
    (AddHandler s h).mw = buildMiddleware (s.handlers ++ [h]) :=
  ⟨rfl, rfl⟩

/-- C4: Run appends the router dispatch handler as the final element of
the handler list before serving, and the router handler delegates dispatch
to the router without ever invoking the continuation it is passed (its
result does not depend on the continuation). -/
theorem run_appends_terminal_router (s : service) (serveErr : Option String)
    (rt : Router) (req : Request) (rw : Response) (n1 n2 : Response → Response) :
    (Run s serveErr).state.handlers = s.handlers ++ [Handler.router] ∧
    routerHandlerRun rt req rw n1 = HandleHTTP rt req rw ∧
    routerHandlerRun rt req rw n1 = routerHandlerRun rt req rw n2 :=
  ⟨rfl, rfl, rfl⟩

/-- C5: service construction fails exactly when Version.Min < 1 or
Version.Max < 1; with both at least 1 it succeeds, and the built service
carries the version-context handler for the range Min..Max. -/
theorem newService_version_validation (c : ServiceConfig) :
    ((∃ e, NewService c = .error e) ↔ (c.version.min < 1 ∨ c.version.max < 1)) ∧
    (1 ≤ c.version.min → 1 ≤ c.version.max →
      ∃ s, NewService c = .ok s ∧
        Handler.context c.version.min c.version.max ∈ s.handlers) := by
  have hv := applyMetricsDefaults_version c
  by_cases h1 : c.version.min < 1
  · constructor
    · simp [NewService, newBottomHandler, newNegotiatorHandler, newContextHandler, hv, h1]
    · intro hmin _
      omega
  · by_cases h2 : c.version.max < 1
    · constructor
      · simp [NewService, newBottomHandler, newNegotiatorHandler, newContextHandler, hv, h1, h2]
      · intro _ hmax
        omega
    · constructor
      · simp [NewService, newBottomHandler, newNegotiatorHandler, newContextHandler, hv, h1, h2]
      · intro _ _
        refine ⟨mkServiceOf c, ?_, ?_⟩
        · simp [NewService, newBottomHandler, newNegotiatorHandler, newContextHandler,
                hv, h1, h2, mkServiceOf]
        · simp [mkServiceOf]

/-- C6: immediately after successful construction the handler list is
exactly [bottom, negotiator, context] in that order, and the middleware
chain is built from exactly that list. -/
theorem newService_default_handlers (c : ServiceConfig) (s : service)
    (h : NewService c = .ok s) :
    s.handlers = [Handler.bottom, Handler.negotiator,
                  Handler.context c.version.min c.version.max] ∧
    s.mw = buildMiddleware s.handlers := by
  rw [newService_ok_elim c s h]
  exact ⟨rfl, rfl⟩

/-- A concrete configuration with metrics and schema disabled and version
range 1..2, used to evaluate the construction theorems. -/
def sampleConfig : ServiceConfig :=
  { addr := "127.0.0.1:8080"
    version := ⟨1, 2⟩
    metrics := ⟨false, "", "", 0⟩
    transport := ⟨false, "", ""⟩
    schema := ⟨false, [], false⟩ }

theorem newService_version_validation_witness :
    (1 : Int) ≤ sampleConfig.version.min ∧ (1 : Int) ≤ sampleConfig.version.max ∧
    ∃ s, NewService sampleConfig = .ok s ∧
      Handler.context sampleConfig.version.min sampleConfig.version.max ∈ s.handlers :=
  ⟨by decide, by decide,
   (newService_version_validation sampleConfig).2 (by decide) (by decide)⟩

theorem newService_default_handlers_witness :
    NewService sampleConfig = .ok (mkServiceOf sampleConfig) ∧
    (mkServiceOf sampleConfig).handlers =
      [Handler.bottom, Handler.negotiator, Handler.context 1 2] ∧
    (mkServiceOf sampleConfig).mw = buildMiddleware (mkServiceOf sampleConfig).handlers :=
  ⟨rfl,
   (newService_default_handlers sampleConfig (mkServiceOf sampleConfig) rfl).1,
   (newService_default_handlers sampleConfig (mkServiceOf sampleConfig) rfl).2⟩

/-- C7: when no registered binding's path template matches the request
path, dispatch responds with status 404; when some binding's template
matches the path but none of the matching bindings has the request's
method, dispatch responds with status 405 and the response carries the
permitted methods for that path. -/
theorem router_dispatch_404_405 (rt : Router) :
    (∀ (req : Request) (rw : Response),
      allowedMethods rt.routes req.path = [] →
      HandleHTTP rt req rw = .response ⟨404, rw.allow⟩) ∧
    (∀ (req : Request) (rw : Response),
      allowedMethods rt.routes req.path ≠ [] →
      (∀ b ∈ rt.routes, pathMatches b req.path = true → b.method ≠ req.method) →
      HandleHTTP rt req rw = .response ⟨405, allowedMethods rt.routes req.path⟩) := by
  constructor
  · intro req rw hal
    have hnm : ∀ b ∈ rt.routes, ¬ (pathMatches b req.path = true) := by
      simpa [allowedMethods, List.map_eq_nil_iff, List.filter_eq_nil_iff] using hal
    have hfind : rt.routes.find?
        (fun b => decide (b.method = req.method) && pathMatches b req.path) = none := by
      rw [List.find?_eq_none]
      intro b hb hx
      simp only [Bool.and_eq_true, decide_eq_true_eq] at hx
      exact hnm b hb hx.2
    simp [HandleHTTP, hfind, hal, notFoundHandler]
  · intro req rw hal hmm
    have hfind : rt.routes.find?
        (fun b => decide (b.method = req.method) && pathMatches b req.path) = none := by
      rw [List.find?_eq_none]
      intro b hb hx
      simp only [Bool.and_eq_true, decide_eq_true_eq] at hx
      exact hmm b hb hx.2 hx.1
    have hie : (allowedMethods rt.routes req.path).isEmpty = false := by
      cases hq : allowedMethods rt.routes req.path with
      | nil => exact absurd hq hal
      | cons a l => rfl
    simp [HandleHTTP, hfind, hie, methodNotAllowedHandler]

/-- A concrete router holding the collection bindings for base path
widgets, used to evaluate the dispatch theorem. -/
def widgetsRouter : Router :=
  (AddCollectionResource (mkServiceOf sampleConfig) ["widgets"] 1).router

theorem router_dispatch_404_405_witness :
    (allowedMethods widgetsRouter.routes ["nope"] = [] ∧
     HandleHTTP widgetsRouter ⟨.get, ["nope"]⟩ ⟨200, []⟩ = .response ⟨404, []⟩) ∧
    (allowedMethods widgetsRouter.routes ["widgets"] ≠ [] ∧
     HandleHTTP widgetsRouter ⟨.put, ["widgets"]⟩ ⟨200, []⟩ =
       .response ⟨405, allowedMethods widgetsRouter.routes ["widgets"]⟩) :=
  ⟨⟨by decide,
    (router_dispatch_404_405 widgetsRouter).1 ⟨.get, ["nope"]⟩ ⟨200, []⟩ (by decide)⟩,
   ⟨by decide,
    (router_dispatch_404_405 widgetsRouter).2 ⟨.put, ["widgets"]⟩ ⟨200, []⟩
      (by decide) (by decide)⟩⟩

/-- C8: when metrics are enabled, the deferred close of the buffered
statsd client runs whenever Run returns, whether or not serving ended in
an error. -/
theorem run_closes_buffered_stats (c : ServiceConfig) (s : service)
    (serveErr : Option String) (hok : NewService c = .ok s)
    (hen : c.metrics.enabled = true) :
    (Run s serveErr).statsClosed = true := by
  rw [newService_ok_elim c s hok]
  simp [Run, newRouterHandler, AddHandler, mkServiceOf, applyMetricsDefaults_enabled, hen]

/-- A concrete configuration with metrics enabled, an empty server, a
customized prefix string and a zero interval. -/
def sampleMetricsConfig : ServiceConfig :=
  { addr := "0.0.0.0:9000"
    version := ⟨1, 1⟩
    metrics := ⟨true, "", "custom.", 0⟩
    transport := ⟨false, "", ""⟩
    schema := ⟨false, [], false⟩ }

theorem run_closes_buffered_stats_witness :
    NewService sampleMetricsConfig = .ok (mkServiceOf sampleMetricsConfig) ∧
    sampleMetricsConfig.metrics.enabled = true ∧
    (Run (mkServiceOf sampleMetricsConfig) (some "listener closed")).statsClosed = true :=
  ⟨rfl, rfl,
   run_closes_buffered_stats sampleMetricsConfig (mkServiceOf sampleMetricsConfig)
     (some "listener closed") rfl rfl⟩

/-- C9: Stats never returns the nil interface value: on a constructed
service it returns the buffered client created at construction when
metrics are enabled and the shared NullStats value otherwise. -/
theorem stats_never_nil (c : ServiceConfig) (s : service)
    (hok : NewService c = .ok s) :
    (∀ t : service, (Stats t).isSome = true) ∧
    (c.metrics.enabled = true →
      ∃ b : StatsdBuffer, s.stats = some b ∧ Stats s = some (.buffered b)) ∧
    (c.metrics.enabled = false → Stats s = some .nullStatsVal) := by
  refine ⟨?_, ?_, ?_⟩
  · intro t
    cases h : t.stats <;> simp [Stats, h]
  · intro hen
    rw [newService_ok_elim c s hok]
    refine ⟨⟨(applyMetricsDefaults c).metrics.interval,
             ⟨(applyMetricsDefaults c).metrics.server,
              (applyMetricsDefaults c).metrics.metricsPrefix⟩⟩, ?_, ?_⟩ <;>
      simp [mkServiceOf, Stats, applyMetricsDefaults_enabled, hen]
  · intro hen
    rw [newService_ok_elim c s hok]
    simp [mkServiceOf, Stats, applyMetricsDefaults_enabled, hen]

theorem stats_never_nil_witness :
    NewService sampleMetricsConfig = .ok (mkServiceOf sampleMetricsConfig) ∧
    sampleMetricsConfig.metrics.enabled = true ∧
    ∃ b : StatsdBuffer, (mkServiceOf sampleMetricsConfig).stats = some b ∧
      Stats (mkServiceOf sampleMetricsConfig) = some (.buffered b) :=
  ⟨rfl, rfl,
   (stats_never_nil sampleMetricsConfig (mkServiceOf sampleMetricsConfig) rfl).2.1 rfl⟩

/-- C10: with metrics enabled, construction fills an empty metrics server
with the default statsd server, an empty prefix string with the default
prefix string, and a zero interval with the default interval, in the
configuration shared with the caller, and leaves every other
configuration field unchanged. -/
theorem newService_metrics_defaults (c : ServiceConfig) (s : service)
    (hok : NewService c = .ok s) (hen : c.metrics.enabled = true) :
    s.config.metrics.server =
      (if c.metrics.server = "" then DEFAULT_STATSD_SERVER else c.metrics.server) ∧
    s.config.metrics.metricsPrefix =
      (if c.metrics.metricsPrefix = "" then DEFAULT_STATSD_PREFIX else c.metrics.metricsPrefix) ∧
    s.config.metrics.interval =
      (if c.metrics.interval = 0 then DEFAULT_STATSD_INTERVAL else c.metrics.interval) ∧
    s.config.metrics.enabled = true ∧
    s.config.addr = c.addr ∧ s.config.version = c.version ∧
    s.config.transport = c.transport ∧ s.config.schema = c.schema := by
  rw [newService_ok_elim c s hok]
  simp [mkServiceOf, applyMetricsDefaults, hen]

theorem newService_metrics_defaults_witness :
    NewService sampleMetricsConfig = .ok (mkServiceOf sampleMetricsConfig) ∧
    (mkServiceOf sampleMetricsConfig).config.metrics.server = DEFAULT_STATSD_SERVER ∧
    (mkServiceOf sampleMetricsConfig).config.metrics.metricsPrefix = "custom." ∧
    (mkServiceOf sampleMetricsConfig).config.metrics.interval = DEFAULT_STATSD_INTERVAL := by
  have h := newService_metrics_defaults sampleMetricsConfig
    (mkServiceOf sampleMetricsConfig) rfl rfl
  exact ⟨rfl, by simpa using h.1, by simpa using h.2.1, by simpa using h.2.2.1⟩

end Luddite
